/-
Verification of the meta-regression results module (pymare/results.py).

The module's own code is pure record/dict plumbing plus exact arithmetic
formulas; the numerical kernels it calls (numpy's `pinv` and `sqrt`,
scipy's normal `cdf`/`ppf`, and the `q_profile` solver from a sibling
module) are external collaborators and are modelled as explicit function
parameters.  Scalars are embedded as rationals, an exact idealisation of
the float arithmetic the source performs.
-/
import Mathlib

/-! ## Data model

`Dataset` mirrors the `pymare.Dataset` fields the results module reads:
`y` (length k), `v` (length k, or absent), `X` (k×p), `names` (length p).
`v = none` embeds the Python `v is None` case. -/

structure Dataset (k np : ℕ) where
  y : Fin k → ℚ
  v : Option (Fin k → ℚ)
  X : Matrix (Fin k) (Fin np) ℚ
  names : Fin np → String
deriving DecidableEq

/-- The dict returned by `_compute_beta_stats`: keys
`se, ci_l, ci_u, z, p`, each a length-p vector. -/
structure BetaStats (np : ℕ) where
  se : Fin np → ℚ
  ci_l : Fin np → ℚ
  ci_u : Fin np → ℚ
  z : Fin np → ℚ
  p : Fin np → ℚ
deriving DecidableEq

/-- The `params['beta']` entry: an `est` vector, plus the stats keys once
`compute_stats` has merged them in (`none` embeds their absence). -/
structure BetaEntry (np : ℕ) where
  est : Fin np → ℚ
  stats : Option (BetaStats np)
deriving DecidableEq

/-- The dict returned by `q_profile`: keys `ci_l`, `ci_u`. -/
structure Tau2CI where
  ci_l : ℚ
  ci_u : ℚ
deriving DecidableEq

/-- The `params['tau2']` entry: an `est` scalar plus, after
`compute_stats`, the CI keys merged in by `dict.update`. -/
structure Tau2Entry where
  est : ℚ
  ci : Option Tau2CI
deriving DecidableEq

/-- The `params` mapping of a results container.  The keys the module
ever reads are `beta` (always present), `tau2` and `sigma` (both
optional); the two optional entries are embedded as `Option`s.
`sigma` only ever has its `est` field read, so it is a bare scalar. -/
structure Params (np : ℕ) where
  beta : BetaEntry np
  tau2 : Option Tau2Entry
  sigma : Option ℚ
deriving DecidableEq

/-- `MetaRegressionResults`: params mapping, dataset, opaque estimator,
stored `ci_method` and `alpha` (constructor defaults `'QP'`, `0.05`). -/
structure MetaRegressionResults (k np : ℕ) (Est : Type) where
  params : Params np
  dataset : Dataset k np
  estimator : Est
  ci_method : String
  alpha : ℚ

/-- External numerical collaborators of the module, as functions:
`sqrt` (numpy), `pinv` (numpy, Moore-Penrose pseudo-inverse), `cdf` and
`ppf` (scipy `ss.norm`), and `qprof` (`q_profile` from `pymare.stats`,
imported by the module but defined in a sibling file). -/
structure Externs (k np : ℕ) where
  sqrt : ℚ → ℚ
  pinv : Matrix (Fin np) (Fin np) ℚ → Matrix (Fin np) (Fin np) ℚ
  cdf : ℚ → ℚ
  ppf : ℚ → ℚ
  qprof : (Fin k → ℚ) → (Fin k → ℚ) → Matrix (Fin k) (Fin np) ℚ → ℚ → Tau2CI

/-! ## The beta-statistics engine (`_compute_beta_stats`) -/

/-- `w = 1. / (v + tau2)` elementwise (line 16 of results.py). -/
def weights {k : ℕ} (v : Fin k → ℚ) (tau2 : ℚ) : Fin k → ℚ :=
  fun i => 1 / (v i + tau2)

/-- `(X * w).T.dot(X)` (line 17): each row i of `X` is scaled by `w i`,
then the transpose is multiplied by `X`. -/
def infoMat {k np : ℕ} (X : Matrix (Fin k) (Fin np) ℚ) (w : Fin k → ℚ) :
    Matrix (Fin np) (Fin np) ℚ :=
  Matrix.transpose (Matrix.of fun (i : Fin k) (j : Fin np) => X i j * w i) * X

/-- The p-value formula on line 26: `1 - np.abs(0.5 - ss.norm.cdf(z)) * 2`. -/
def pvalue (cdf : ℚ → ℚ) (z : ℚ) : ℚ :=
  1 - |1 / 2 - cdf z| * 2

/-- `_compute_beta_stats(beta, v, X, tau2, alpha)` (lines 15-27), the
Wald-statistics engine.  `sqrt`, `pinv`, `cdf`, `ppf` are the external
numerical routines it calls. -/
def compute_beta_stats {k np : ℕ} (sqrt : ℚ → ℚ)
    (pinv : Matrix (Fin np) (Fin np) ℚ → Matrix (Fin np) (Fin np) ℚ)
    (cdf ppf : ℚ → ℚ) (beta : Fin np → ℚ) (v : Fin k → ℚ)
    (X : Matrix (Fin k) (Fin np) ℚ) (tau2 alpha : ℚ) : BetaStats np :=
  let w := weights v tau2
  let se : Fin np → ℚ := fun i => sqrt ((pinv (infoMat X w)) i i)
  let z_se := ppf (1 - alpha / 2)
  let z : Fin np → ℚ := fun i => beta i / se i
  { se := se
    ci_l := fun i => beta i - z_se * se i
    ci_u := fun i => beta i + z_se * se i
    z := z
    p := fun i => pvalue cdf (z i) }

/-! ## The results container operations -/

/-- The `v` actually used by `compute_stats` (lines 95-101): the
dataset's `v` when present; otherwise a constant vector filled with the
`sigma` point estimate (0 when `sigma` is absent),
`np.ones((len(X), 1)) * v`. -/
def effective_v {k np : ℕ} {Est : Type}
    (res : MetaRegressionResults k np Est) : Fin k → ℚ :=
  match res.dataset.v with
  | some vv => vv
  | none => fun _ => res.params.sigma.getD 0

/-- `compute_stats(ci_method=None, alpha=None)` (lines 80-111).  Twice
`Option`: a `none` argument leaves the stored value in place (the Python
`if ... is not None` guards).  The beta stats are merged into the `beta`
entry; when a `tau2` entry exists, `q_profile` is invoked and its result
merged into the `tau2` entry. -/
def compute_stats {k np : ℕ} {Est : Type} (E : Externs k np)
    (res : MetaRegressionResults k np Est)
    (ci_method : Option String) (alpha : Option ℚ) :
    MetaRegressionResults k np Est :=
  let alpha1 := alpha.getD res.alpha
  let cim1 := ci_method.getD res.ci_method
  let v := effective_v res
  let tau2 := (res.params.tau2.map Tau2Entry.est).getD 0
  let fixed := compute_beta_stats E.sqrt E.pinv E.cdf E.ppf
    res.params.beta.est v res.dataset.X tau2 alpha1
  let params1 : Params np :=
    { res.params with beta := { res.params.beta with stats := some fixed } }
  let params2 : Params np :=
    match res.params.tau2 with
    | some t2 =>
        { params1 with
          tau2 := some
            { t2 with ci := some (E.qprof res.dataset.y v res.dataset.X alpha1) } }
    | none => params1
  { res with params := params2, alpha := alpha1, ci_method := cim1 }

/-- Keys of the params mapping that the module itself ever consults. -/
inductive ParamKey
  | beta
  | tau2
  | sigma
deriving DecidableEq

/-- A value held in the params mapping, for keyed lookup. -/
inductive ParamVal (np : ℕ)
  | betaEntry (e : BetaEntry np)
  | tau2Entry (e : Tau2Entry)
  | sigmaEntry (s : ℚ)
deriving DecidableEq

/-- `__getitem__` (lines 53-55): keyed lookup into `params`, raising
`KeyError` (embedded as `Except.error`) for an absent key.  A pure
read: it takes the container and returns a value, touching nothing. -/
def getitem {k np : ℕ} {Est : Type} (res : MetaRegressionResults k np Est) :
    ParamKey → Except Unit (ParamVal np)
  | .beta => .ok (.betaEntry res.params.beta)
  | .tau2 =>
      match res.params.tau2 with
      | some e => .ok (.tau2Entry e)
      | none => .error ()
  | .sigma =>
      match res.params.sigma with
      | some s => .ok (.sigmaEntry s)
      | none => .error ()

/-! ## Tabular export (`to_df`) -/

/-- A cell of the rendered table: a number, a string, or the NaN a
`pd.concat` with `sort=False` fills into columns a row lacks. -/
inductive Cell
  | num (q : ℚ)
  | str (s : String)
  | na
deriving DecidableEq

/-- An absent optional value renders as a NaN cell. -/
def cellOf : Option ℚ → Cell
  | some q => .num q
  | none => .na

/-- The rendered data frame: a header row and the data rows. -/
structure Df where
  header : List String
  rows : List (List Cell)
deriving DecidableEq

/-- How `to_df` can fail: `KeyError: 'tau2'` on the direct
`self.params['tau2']` subscript (line 69), or the `KeyError` pandas
raises at line 73 when the stats columns `se, z, p, ci_l, ci_u` were
never computed and `.loc` selects them anyway. -/
inductive DfErr
  | keyNotFound
  | missingColumns
deriving DecidableEq

/-- `to_df()` (lines 63-78).  `fmt` embeds the Python format spec
`'\x7b:.6g\x7d'.format`, i.e. rendering a number to 6 significant
digits.  Row order: one row per coefficient, then the `tau^2` row;
column order fixed by the `df.loc` selection and rename on lines 73-76. -/
def to_df {k np : ℕ} {Est : Type} (fmt : ℚ → String)
    (res : MetaRegressionResults k np Est) : Except DfErr Df :=
  match res.params.tau2 with
  | none => .error .keyNotFound
  | some t2 =>
    match res.params.beta.stats with
    | none => .error .missingColumns
    | some bs =>
      .ok
        { header := ["name", "estimate", "se", "z-score", "p-val",
            "ci_" ++ fmt (res.alpha / 2), "ci_" ++ fmt (1 - res.alpha / 2)]
          rows :=
            (List.ofFn fun i : Fin np =>
              [Cell.str (res.dataset.names i), Cell.num (res.params.beta.est i),
                Cell.num (bs.se i), Cell.num (bs.z i), Cell.num (bs.p i),
                Cell.num (bs.ci_l i), Cell.num (bs.ci_u i)]) ++
            [[Cell.str "tau^2", Cell.num t2.est, Cell.na, Cell.na, Cell.na,
              cellOf (t2.ci.map Tau2CI.ci_l), cellOf (t2.ci.map Tau2CI.ci_u)]] }

/-! ## Concrete instantiations used to exercise the theorems -/

/-- A simple stand-in for a normal CDF: the symmetric, monotone ramp
`t ↦ clamp[0,1]((1+t)/2)`, which has the two properties of `Φ` the
p-value identity relies on (point symmetry about `(0, 1/2)` and values
at least `1/2` on the nonnegative axis). -/
def clampCdf (t : ℚ) : ℚ := max 0 (min 1 ((1 + t) / 2))

/-- A stand-in for the 6-significant-digit float formatter, correct at
the two quantiles of `alpha = 0.05`. -/
def fmt6g0 (q : ℚ) : String := if q < 1 / 2 then "0.025" else "0.975"

/-- Concrete externals on a 1-study, 1-coefficient problem; the profile
solver returns the constant interval `[3, 7]`. -/
def E0 : Externs 1 1 :=
  { sqrt := id, pinv := id, cdf := id, ppf := id
    qprof := fun _ _ _ _ => { ci_l := 3, ci_u := 7 } }

/-- A fresh container whose `ci_method` is not `"QP"` but whose params
do contain a `tau2` entry. -/
def res_qp_violation : MetaRegressionResults 1 1 Unit :=
  { params :=
      { beta := { est := fun _ => 1, stats := none }
        tau2 := some { est := 4, ci := none }
        sigma := none }
    dataset :=
      { y := fun _ => 2, v := some fun _ => 1
        X := Matrix.of fun _ _ => 1, names := fun _ => "intercept" }
    estimator := ()
    ci_method := "bootstrap"
    alpha := 1 / 20 }

/-- A container with `v` absent and a `sigma` estimate supplied. -/
def res_sigma : MetaRegressionResults 1 1 Unit :=
  { params :=
      { beta := { est := fun _ => 1, stats := none }
        tau2 := some { est := 4, ci := none }
        sigma := some 2 }
    dataset :=
      { y := fun _ => 2, v := none
        X := Matrix.of fun _ _ => 1, names := fun _ => "intercept" }
    estimator := ()
    ci_method := "QP"
    alpha := 1 / 20 }

/-- A container with both `v` and `sigma` absent. -/
def res_no_sigma : MetaRegressionResults 1 1 Unit :=
  { params :=
      { beta := { est := fun _ => 1, stats := none }
        tau2 := some { est := 4, ci := none }
        sigma := none }
    dataset :=
      { y := fun _ => 2, v := none
        X := Matrix.of fun _ _ => 1, names := fun _ => "intercept" }
    estimator := ()
    ci_method := "QP"
    alpha := 1 / 20 }

/-- A container whose params mapping has no `tau2` entry. -/
def res_no_tau2 : MetaRegressionResults 1 1 Unit :=
  { params :=
      { beta := { est := fun _ => 1, stats := none }
        tau2 := none
        sigma := none }
    dataset :=
      { y := fun _ => 2, v := some fun _ => 1
        X := Matrix.of fun _ _ => 1, names := fun _ => "intercept" }
    estimator := ()
    ci_method := "QP"
    alpha := 1 / 20 }

/-- Beta stats of an already-computed container. -/
def bs0 : BetaStats 1 :=
  { se := fun _ => 1, ci_l := fun _ => 0, ci_u := fun _ => 2
    z := fun _ => 1, p := fun _ => 1 / 2 }

/-- The `tau2` entry of an already-computed container. -/
def t20 : Tau2Entry := { est := 4, ci := some { ci_l := 3, ci_u := 7 } }

/-- An already-computed container (all stats fields populated),
with the default `alpha = 0.05`. -/
def res_computed : MetaRegressionResults 1 1 Unit :=
  { params :=
      { beta := { est := fun _ => 1, stats := some bs0 }
        tau2 := some t20
        sigma := none }
    dataset :=
      { y := fun _ => 2, v := some fun _ => 1
        X := Matrix.of fun _ _ => 1, names := fun _ => "intercept" }
    estimator := ()
    ci_method := "QP"
    alpha := 1 / 20 }

/-- A rank-deficient design matrix: the second column duplicates the
first, so `X` has rank 1 < 2. -/
def X_dup : Matrix (Fin 2) (Fin 2) ℚ := Matrix.of ![![1, 1], ![1, 1]]

/-! ## Helper lemmas -/

/-- The code's `(X * w).T.dot(X)` equals the spec's weighted information
matrix `Xᵀ · diag(w) · X`. -/
theorem infoMat_eq_diagonal {k np : ℕ} (X : Matrix (Fin k) (Fin np) ℚ)
    (w : Fin k → ℚ) :
    infoMat X w = Matrix.transpose X * Matrix.diagonal w * X := by
  rw [Matrix.mul_assoc]
  ext i j
  show (Matrix.transpose (Matrix.of fun (a : Fin k) (b : Fin np) => X a b * w a)
      * X) i j = (Matrix.transpose X * (Matrix.diagonal w * X)) i j
  rw [Matrix.mul_apply, Matrix.mul_apply]
  refine Finset.sum_congr rfl fun l _ => ?_
  rw [Matrix.transpose_apply, Matrix.transpose_apply, Matrix.of_apply,
    Matrix.diagonal_mul]
  ring

/-- The ramp CDF is point-symmetric about `(0, 1/2)`. -/
theorem clampCdf_symm (t : ℚ) : clampCdf (-t) = 1 - clampCdf t := by
  have e : (1 + -t) / 2 = 1 - (1 + t) / 2 := by ring
  simp only [clampCdf, e]
  set a := (1 + t) / 2 with ha
  rcases le_total a 0 with h | h
  · rw [min_eq_right (show a ≤ 1 by linarith), max_eq_left h,
      min_eq_left (show (1 : ℚ) ≤ 1 - a by linarith),
      max_eq_right (show (0 : ℚ) ≤ 1 by norm_num)]
    norm_num
  · rcases le_total 1 a with h1 | h1
    · rw [min_eq_left h1, max_eq_right (show (0 : ℚ) ≤ 1 by norm_num),
        min_eq_right (show 1 - a ≤ 1 by linarith),
        max_eq_left (show 1 - a ≤ 0 by linarith)]
      norm_num
    · rw [min_eq_right h1, max_eq_right h,
        min_eq_right (show 1 - a ≤ 1 by linarith),
        max_eq_right (show (0 : ℚ) ≤ 1 - a by linarith)]

/-- The ramp CDF is at least `1/2` on the nonnegative axis. -/
theorem clampCdf_half (t : ℚ) (ht : 0 ≤ t) : 1 / 2 ≤ clampCdf t :=
  le_trans (le_min (by norm_num) (by linarith)) (le_max_right 0 _)

/-! ## Claim theorems -/

/-- C5: for every input to the beta-statistics computation and every
coefficient, the returned bounds satisfy `ci_l = est - z_crit * se` and
`ci_u = est + z_crit * se` with `z_crit = ppf (1 - alpha / 2)`, and the
symmetry equation `ci_u - est = est - ci_l` holds exactly. -/
theorem claim_C5_ci_symmetry {k np : ℕ} (sqrt : ℚ → ℚ)
    (pinv : Matrix (Fin np) (Fin np) ℚ → Matrix (Fin np) (Fin np) ℚ)
    (cdf ppf : ℚ → ℚ) (beta : Fin np → ℚ) (v : Fin k → ℚ)
    (X : Matrix (Fin k) (Fin np) ℚ) (tau2 alpha : ℚ) (i : Fin np) :
    (compute_beta_stats sqrt pinv cdf ppf beta v X tau2 alpha).ci_l i
        = beta i - ppf (1 - alpha / 2)
            * (compute_beta_stats sqrt pinv cdf ppf beta v X tau2 alpha).se i ∧
    (compute_beta_stats sqrt pinv cdf ppf beta v X tau2 alpha).ci_u i
        = beta i + ppf (1 - alpha / 2)
            * (compute_beta_stats sqrt pinv cdf ppf beta v X tau2 alpha).se i ∧
    (compute_beta_stats sqrt pinv cdf ppf beta v X tau2 alpha).ci_u i - beta i
        = beta i
          - (compute_beta_stats sqrt pinv cdf ppf beta v X tau2 alpha).ci_l i := by
  refine ⟨rfl, rfl, ?_⟩
  have hu : (compute_beta_stats sqrt pinv cdf ppf beta v X tau2 alpha).ci_u i
      = beta i + ppf (1 - alpha / 2)
          * (compute_beta_stats sqrt pinv cdf ppf beta v X tau2 alpha).se i := rfl
  have hl : (compute_beta_stats sqrt pinv cdf ppf beta v X tau2 alpha).ci_l i
      = beta i - ppf (1 - alpha / 2)
          * (compute_beta_stats sqrt pinv cdf ppf beta v X tau2 alpha).se i := rfl
  rw [hu, hl]
  ring

/-- C9: `compute_stats` leaves the referenced dataset and the estimator
untouched; only the params mapping and the stored `alpha`/`ci_method`
can change (they are the only other fields of the container).  Table
rendering (`to_df`) and keyed lookup (`getitem`) are embedded as pure
functions of the container, mirroring that their Python bodies perform
no assignment to `self` or to the dataset. -/
theorem claim_C9_frame {k np : ℕ} {Est : Type} (E : Externs k np)
    (res : MetaRegressionResults k np Est) (m : Option String) (a : Option ℚ) :
    (compute_stats E res m a).dataset = res.dataset ∧
    (compute_stats E res m a).estimator = res.estimator :=
  ⟨rfl, rfl⟩

/-- C1 (amended): `compute_stats` invokes the `q_profile` solver
whenever a `tau2` entry exists, regardless of the stored or supplied
`ci_method`; the method tag is stored but never consulted, and no
unsupported-method error is raised. -/
theorem claim_C1_amended {k np : ℕ} {Est : Type} (E : Externs k np)
    (res : MetaRegressionResults k np Est) (m : Option String) (a : Option ℚ) :
    (compute_stats E res m a).params.tau2 =
      res.params.tau2.map fun t2 =>
        { t2 with
          ci := some (E.qprof res.dataset.y (effective_v res) res.dataset.X
            (a.getD res.alpha)) } := by
  rcases h : res.params.tau2 with _ | t2 <;> simp [compute_stats, h]

/-- C1 (counterexample): a container whose `ci_method` is `"bootstrap"`
(not `"QP"`) and whose params contain a `tau2` entry: `compute_stats`
does not fail, runs the profile solver anyway (the `tau2` entry receives
the solver's interval), and computes the beta stats as well. -/
theorem claim_C1_counterexample :
    res_qp_violation.ci_method ≠ "QP" ∧
    (compute_stats E0 res_qp_violation none none).params.tau2
        = some { est := 4, ci := some { ci_l := 3, ci_u := 7 } } ∧
    (compute_stats E0 res_qp_violation none none).params.beta.stats.isSome
        = true :=
  ⟨by decide, rfl, rfl⟩

/-- C10: when the params mapping lacks a `tau2` entry, `to_df` fails
with the key-not-found error (the `KeyError` from the direct
`self.params['tau2']` subscript) instead of rendering a
coefficients-only table. -/
theorem claim_C10_to_df_keyerror {k np : ℕ} {Est : Type} (fmt : ℚ → String)
    (res : MetaRegressionResults k np Est) (h : res.params.tau2 = none) :
    to_df fmt res = .error .keyNotFound := by
  simp [to_df, h]

/-- C10 witness: a concrete container without a `tau2` entry. -/
theorem claim_C10_witness :
    res_no_tau2.params.tau2 = none ∧
    to_df fmt6g0 res_no_tau2 = .error .keyNotFound :=
  ⟨rfl, claim_C10_to_df_keyerror fmt6g0 res_no_tau2 rfl⟩

/-- C3: for every valid input, the beta-statistics computation returns
`se = sqrt(diag(pinv(Xᵀ · diag(w) · X)))` with `w i = 1 / (v i + tau2)`
and `z = beta / se` elementwise.  No rank condition on `X` is assumed:
a rank-deficient design matrix goes through the same pseudo-inverse
path and yields defined standard errors rather than a failure. -/
theorem claim_C3_se_pinv {k np : ℕ} (sqrt : ℚ → ℚ)
    (pinv : Matrix (Fin np) (Fin np) ℚ → Matrix (Fin np) (Fin np) ℚ)
    (cdf ppf : ℚ → ℚ) (beta : Fin np → ℚ) (v : Fin k → ℚ)
    (X : Matrix (Fin k) (Fin np) ℚ) (tau2 alpha : ℚ)
    (hv : ∀ i, 0 ≤ v i) (ht : 0 ≤ tau2) (ha1 : 0 < alpha) (ha2 : alpha < 1) :
    (compute_beta_stats sqrt pinv cdf ppf beta v X tau2 alpha).se
        = (fun i => sqrt ((pinv (Matrix.transpose X
            * Matrix.diagonal (fun j => 1 / (v j + tau2)) * X)) i i)) ∧
    (compute_beta_stats sqrt pinv cdf ppf beta v X tau2 alpha).z
        = fun i => beta i
            / (compute_beta_stats sqrt pinv cdf ppf beta v X tau2 alpha).se i := by
  constructor
  · show (fun i => sqrt ((pinv (infoMat X (weights v tau2))) i i)) = _
    rw [infoMat_eq_diagonal]
    rfl
  · rfl

/-- C3 witness: the duplicated-column (rank-1) design matrix `X_dup`
satisfies the conclusion with concrete inputs; the claim's validity
hypotheses hold at these inputs. -/
theorem claim_C3_witness :
    ((0 : ℚ) < 1 / 20) ∧
    ((compute_beta_stats id id id id ![1, 2] ![1, 1] X_dup 0 (1 / 20)).se
        = (fun i => id ((id (Matrix.transpose X_dup
            * Matrix.diagonal (fun j => 1 / ((![1, 1] : Fin 2 → ℚ) j + 0))
            * X_dup)) i i)) ∧
      (compute_beta_stats id id id id ![1, 2] ![1, 1] X_dup 0 (1 / 20)).z
        = fun i => (![1, 2] : Fin 2 → ℚ) i
            / (compute_beta_stats id id id id
                ![1, 2] ![1, 1] X_dup 0 (1 / 20)).se i) :=
  ⟨by norm_num,
   claim_C3_se_pinv id id id id ![1, 2] ![1, 1] X_dup 0 (1 / 20)
     (by decide) le_rfl (by norm_num) (by norm_num)⟩

/-- C4: for every z, the implementation's p-value formula (line 26,
`1 - abs(0.5 - cdf z) * 2`, the `pvalue` definition) agrees with the
reference two-sided form `2 * (1 - cdf |z|)` for both signs of z, for
any CDF that is point-symmetric about `(0, 1/2)` and at least `1/2` on
the nonnegative axis; consequently the `p` field of the engine's output
equals the reference form at the computed `z`. -/
theorem claim_C4_pvalue_forms (cdf : ℚ → ℚ)
    (h1 : ∀ t, cdf (-t) = 1 - cdf t) (h2 : ∀ t, 0 ≤ t → 1 / 2 ≤ cdf t) :
    (∀ z : ℚ, pvalue cdf z = 2 * (1 - cdf |z|)) ∧
    (∀ (k np : ℕ) (sqrt : ℚ → ℚ)
      (pinv : Matrix (Fin np) (Fin np) ℚ → Matrix (Fin np) (Fin np) ℚ)
      (ppf : ℚ → ℚ) (beta : Fin np → ℚ) (v : Fin k → ℚ)
      (X : Matrix (Fin k) (Fin np) ℚ) (tau2 alpha : ℚ) (i : Fin np),
      (compute_beta_stats sqrt pinv cdf ppf beta v X tau2 alpha).p i
        = 2 * (1 - cdf
            |(compute_beta_stats sqrt pinv cdf ppf beta v X tau2 alpha).z i|)) := by
  have key : ∀ z : ℚ, pvalue cdf z = 2 * (1 - cdf |z|) := by
    intro z
    rcases le_or_lt 0 z with hz | hz
    · have hc := h2 z hz
      rw [pvalue, abs_of_nonpos (by linarith), abs_of_nonneg hz]
      ring
    · have hz' : 0 ≤ -z := by linarith
      have hc := h2 (-z) hz'
      have hs := h1 (-z)
      rw [neg_neg] at hs
      rw [pvalue, abs_of_nonneg (by linarith), abs_of_neg hz]
      linarith
  exact ⟨key, fun k np sqrt pinv ppf beta v X tau2 alpha i => key _⟩

/-- C4 witness: the identity instantiated at the concrete symmetric
monotone ramp CDF, at `z = 3` and `z = -3`. -/
theorem claim_C4_witness :
    pvalue clampCdf 3 = 2 * (1 - clampCdf |(3 : ℚ)|) ∧
    pvalue clampCdf (-3) = 2 * (1 - clampCdf |(-3 : ℚ)|) :=
  ⟨(claim_C4_pvalue_forms clampCdf clampCdf_symm clampCdf_half).1 3,
   (claim_C4_pvalue_forms clampCdf clampCdf_symm clampCdf_half).1 (-3)⟩

/-- C6: when the dataset's `v` is absent and a scalar `sigma` estimate
is supplied, `compute_stats` produces the same params mapping as on the
container with an explicit `v` vector filled with that sigma value;
when `sigma` is also absent the substituted vector is all zeros; and
when `tau2` is absent the beta stats are computed with a `tau2` point
estimate of 0. -/
theorem claim_C6_v_substitution {k np : ℕ} {Est : Type} (E : Externs k np)
    (beta : BetaEntry np) (t2o : Option Tau2Entry) (s : ℚ)
    (y : Fin k → ℚ) (X : Matrix (Fin k) (Fin np) ℚ) (nm : Fin np → String)
    (est : Est) (cim : String) (al : ℚ) (m : Option String) (a : Option ℚ) :
    ((compute_stats E
        ⟨⟨beta, t2o, some s⟩, ⟨y, none, X, nm⟩, est, cim, al⟩ m a).params
      = (compute_stats E
        ⟨⟨beta, t2o, some s⟩, ⟨y, some fun _ => s, X, nm⟩, est, cim, al⟩
        m a).params) ∧
    ((compute_stats E
        ⟨⟨beta, t2o, none⟩, ⟨y, none, X, nm⟩, est, cim, al⟩ m a).params
      = (compute_stats E
        ⟨⟨beta, t2o, none⟩, ⟨y, some fun _ => 0, X, nm⟩, est, cim, al⟩
        m a).params) ∧
    (∀ (so : Option ℚ) (vo : Option (Fin k → ℚ)),
      (compute_stats E
          ⟨⟨beta, none, so⟩, ⟨y, vo, X, nm⟩, est, cim, al⟩ m a).params.beta.stats
        = some (compute_beta_stats E.sqrt E.pinv E.cdf E.ppf beta.est
            (effective_v ⟨⟨beta, none, so⟩, ⟨y, vo, X, nm⟩, est, cim, al⟩)
            X 0 (a.getD al))) := by
  refine ⟨?_, ?_, fun so vo => ?_⟩
  · cases t2o <;> rfl
  · cases t2o <;> rfl
  · rfl

/-- C7: `compute_stats` is idempotent: re-invoking it with the same
`ci_method` and `alpha` on an already-computed container reproduces the
container exactly (in particular the `se`, `ci_l`, `ci_u`, `z`, `p`
fields of every parameter entry are identical). -/
theorem claim_C7_idempotent {k np : ℕ} {Est : Type} (E : Externs k np)
    (res : MetaRegressionResults k np Est) (m : String) (a : ℚ) :
    compute_stats E (compute_stats E res (some m) (some a)) (some m) (some a)
      = compute_stats E res (some m) (some a) := by
  obtain ⟨⟨⟨best, bstats⟩, t2o, so⟩, ⟨y, vo, X, nm⟩, est, cim, al⟩ := res
  cases t2o <;> cases vo <;> rfl

/-- C8: for a computed container the rendered table has exactly the
columns `name, estimate, se, z-score, p-val, ci_<alpha/2>,
ci_<1-alpha/2>`, the last two labels formatted from the numeric
quantiles; for `alpha = 0.05` (and a formatter rendering `1/40` as
`0.025` and `39/40` as `0.975`, as 6-significant-digit formatting does)
the labels are `ci_0.025` and `ci_0.975`. -/
theorem claim_C8_columns {k np : ℕ} {Est : Type} (fmt : ℚ → String)
    (res : MetaRegressionResults k np Est) (bs : BetaStats np) (t2 : Tau2Entry)
    (h1 : res.params.beta.stats = some bs) (h2 : res.params.tau2 = some t2) :
    Except.map Df.header (to_df fmt res)
        = .ok ["name", "estimate", "se", "z-score", "p-val",
            "ci_" ++ fmt (res.alpha / 2), "ci_" ++ fmt (1 - res.alpha / 2)] ∧
    (res.alpha = 1 / 20 → fmt (1 / 40) = "0.025" → fmt (39 / 40) = "0.975" →
      Except.map Df.header (to_df fmt res)
        = .ok ["name", "estimate", "se", "z-score", "p-val",
            "ci_0.025", "ci_0.975"]) := by
  constructor
  · simp [to_df, h1, h2, Except.map]
  · intro ha hf1 hf2
    have e1 : res.alpha / 2 = 1 / 40 := by rw [ha]; norm_num
    have e2 : 1 - res.alpha / 2 = 39 / 40 := by rw [ha]; norm_num
    simp only [to_df, h1, h2, Except.map]
    rw [e2, e1, hf1, hf2]
    rfl

/-- C8 witness: the concrete computed container with `alpha = 0.05`
renders with header `name, estimate, se, z-score, p-val, ci_0.025,
ci_0.975`. -/
theorem claim_C8_witness :
    Except.map Df.header (to_df fmt6g0 res_computed)
      = .ok ["name", "estimate", "se", "z-score", "p-val",
          "ci_0.025", "ci_0.975"] :=
  (claim_C8_columns fmt6g0 res_computed bs0 t20 rfl rfl).2 rfl
    (by show (if (1 : ℚ) / 40 < 1 / 2 then "0.025" else "0.975") = "0.025"
        rw [if_pos (show (1 : ℚ) / 40 < 1 / 2 by norm_num)])
    (by show (if (39 : ℚ) / 40 < 1 / 2 then "0.025" else "0.975") = "0.975"
        rw [if_neg (show ¬((39 : ℚ) / 40 < 1 / 2) by norm_num)])
